import Mathlib

/-!
Shallow embedding of the `Beam` module of the zgoubidoo repository
(file `zgoubidoo/beam.py`) and verification of the frozen claims about it.

Modelling conventions:
- A pandas DataFrame is modelled as a list of rows (the row payload is an
  abstract type, since the slicing code never inspects row contents) together
  with a list of column labels.
- Python exceptions are modelled by the `BeamError` inductive; the source
  raises `ZgoubidooBeamException` with two distinct messages (empty
  distribution, invalid twiss key), an `AssertionError` for a wrongly shaped
  explicit covariance matrix, a `KeyError` for a missing required keyword and
  a `ZeroDivisionError` when a Twiss beta of zero is divided by; in addition,
  the column relabeling inside `get_slices` raises a pandas `ValueError`
  (length mismatch) whenever the sliced chunk does not have exactly 5
  columns, which happens on the very first candidate chunk (before the
  emptiness check) for every stored distribution whose column count is not
  5.
- The random sampler (`numpy.random.multivariate_normal` or its intel
  variant) is an external collaborator: it is passed in as a function `Gen`
  from means, covariance and count to a list of sampled rows.
- Numeric values are rationals; `int(np.floor(n_tot / n))` on nonnegative
  counts is natural-number division.
-/

namespace ZgoubidooBeam

/-- Failure conditions of the Beam module.  `emptyDistribution` and
`invalidTwiss` are the two `ZgoubidooBeamException` raises of the source,
`shapeError` is the `assert matrix.shape == (5, 5)` failure, `missingParameter`
is the `KeyError` of a mandatory keyword access `kwargs[k]`, `zeroDivision` is
a Python `ZeroDivisionError`, and `valueError` is the pandas `ValueError`
(length mismatch) raised by assigning a five-element list to the columns of a
frame that does not have exactly five columns. -/
inductive BeamError where
  | emptyDistribution : BeamError
  | invalidTwiss : BeamError
  | shapeError : BeamError
  | missingParameter : String → BeamError
  | zeroDivision : BeamError
  | valueError : BeamError
deriving DecidableEq, Repr

/-- A pandas DataFrame: ordered rows plus column labels.  Rows are kept
abstract because the embedded operations only slice, count and relabel. -/
structure DataFrame (α : Type) where
  rows : List α
  columns : List String
deriving DecidableEq, Repr

/-- The canonical column labels assigned by `get_slices`. -/
def canonicalColumns : List String := ["Y", "T", "Z", "P", "D"]

/-- Column labels of `pd.DataFrame(ndarray)`: a numeric RangeIndex. -/
def numericColumns : List String := ["0", "1", "2", "3", "4"]

/-- Python slice `rows[a:b]` for nonnegative bounds: drop `a`, take `b - a`. -/
def iloc {α : Type} (rows : List α) (a b : Nat) : List α :=
  (rows.drop a).take (b - a)

/-- Candidate chunk number `i` of `get_slices` after a successful relabel:
`self._distribution.iloc[i * n_slices:(i + 1) * n_slices]` with its columns
set to `[Y, T, Z, P, D]`.  This is the spec-side description of a yielded
chunk; the model of the loop itself performs the relabel fallibly via
`setColumns`. -/
def chunkD {α : Type} (rows : List α) (n_slices i : Nat) : DataFrame α :=
  { rows := iloc rows (i * n_slices) ((i + 1) * n_slices), columns := canonicalColumns }

/-- Model of the pandas columns assignment `d.columns = labels`: it succeeds
exactly when the new label list has as many entries as the frame has columns,
and raises a `ValueError` (length mismatch) otherwise. -/
def setColumns {α : Type} (df : DataFrame α) (labels : List String) :
    Except BeamError (DataFrame α) :=
  if df.columns.length = labels.length then .ok { df with columns := labels }
  else .error .valueError

/-- The loop `for i in range(0, n + 1)` of `get_slices`, starting at index `i`
with `fuel` iterations left: build the candidate chunk (an `iloc` row slice,
which keeps the column labels `cols` of the stored distribution), relabel its
columns to `[Y, T, Z, P, D]` (a `ValueError` if the chunk does not have
exactly five columns — this happens before the emptiness check), stop without
yielding if the chunk has fewer than 1 row, otherwise yield it and
continue. -/
def get_slices_aux {α : Type} (rows : List α) (cols : List String) (n_slices : Nat) :
    Nat → Nat → Except BeamError (List (DataFrame α))
  | _, 0 => .ok []
  | i, fuel + 1 =>
    let d0 : DataFrame α :=
      { rows := iloc rows (i * n_slices) ((i + 1) * n_slices), columns := cols }
    match setColumns d0 canonicalColumns with
    | .error e => .error e
    | .ok d =>
      if d.rows.length < 1 then .ok []
      else
        match get_slices_aux rows cols n_slices (i + 1) fuel with
        | .error e => .error e
        | .ok l => .ok (d :: l)

/-- Model of `Beam.get_slices(n)`: `n_slices = int(np.floor(n_tot / n))` and
the yield loop over `range(0, n + 1)`.  Python raises a `ZeroDivisionError` on
`n = 0`.  Since the loop relabels each candidate chunk before checking its
emptiness, and the loop body runs at least once, a stored distribution whose
column count is not 5 always fails with `valueError` before anything is
yielded; this also means a failing run never yields chunks first, so the
generator is faithfully modelled by a single `Except` value. -/
def Beam.get_slices {α : Type} (df : DataFrame α) (n : Nat) : Except BeamError (List (DataFrame α)) :=
  if n = 0 then .error .zeroDivision
  else
    let n_tot := df.rows.length
    let n_slices := n_tot / n
    get_slices_aux df.rows df.columns n_slices 0 (n + 1)

/-- Model of `Beam.generate_from_file(file, path, n)`, which is
`pd.read_csv(os.path.join(path, file))[:n]`.  The parsed table of the file is
an input (file reading is an external collaborator); `[:n]` truncates to the
first `n` rows, and the default `n = None` keeps all rows. -/
def Beam.generate_from_file {α : Type} (tbl : DataFrame α) (n : Option Nat) : DataFrame α :=
  match n with
  | none => tbl
  | some k => { tbl with rows := tbl.rows.take k }

/-- The 20 numeric keyword parameters of `generate_from_5d_sigma_matrix`:
five means, fourteen upper-triangle covariance entries and `dpprms`. -/
structure SigmaParams where
  x : ℚ
  px : ℚ
  y : ℚ
  py : ℚ
  dpp : ℚ
  s11 : ℚ
  s12 : ℚ
  s13 : ℚ
  s14 : ℚ
  s15 : ℚ
  s22 : ℚ
  s23 : ℚ
  s24 : ℚ
  s25 : ℚ
  s33 : ℚ
  s34 : ℚ
  s35 : ℚ
  s44 : ℚ
  s45 : ℚ
  dpprms : ℚ
deriving DecidableEq, Repr

/-- The `np.array([...])` literal of `generate_from_5d_sigma_matrix`, with the
mirrored lower-triangle variables `s21 = s12`, ... and `s55 = dpprms ** 2`
exactly as the source assigns them. -/
def sigmaRows (p : SigmaParams) : List (List ℚ) :=
  let s21 := p.s12
  let s31 := p.s13
  let s32 := p.s23
  let s41 := p.s14
  let s42 := p.s24
  let s43 := p.s34
  let s51 := p.s15
  let s52 := p.s25
  let s53 := p.s35
  let s54 := p.s45
  let s55 := p.dpprms ^ 2
  [[p.s11, p.s12, p.s13, p.s14, p.s15],
   [s21, p.s22, p.s23, p.s24, p.s25],
   [s31, s32, p.s33, p.s34, p.s35],
   [s41, s42, s43, p.s44, p.s45],
   [s51, s52, s53, s54, s55]]

/-- Entry view of the assembled 5×5 covariance matrix. -/
def sigmaMatrix (p : SigmaParams) (i j : Fin 5) : ℚ :=
  ((sigmaRows p).getD i.val []).getD j.val 0

/-- The mean vector `[x, px, y, py, dpp]`. -/
def meansOf (p : SigmaParams) : List ℚ := [p.x, p.px, p.y, p.py, p.dpp]

/-- The multivariate normal sampler, an external collaborator: given the mean
vector, a 5×5 covariance and a sample count it returns the sampled rows. -/
def Gen : Type := List ℚ → (Fin 5 → Fin 5 → ℚ) → Nat → List (List ℚ)

/-- A numpy array passed as the explicit `matrix` argument: a shape attribute
and an entry function. -/
structure PyMatrix where
  shape : Nat × Nat
  entry : Nat → Nat → ℚ

/-- Model of the static method `Beam.generate_from_5d_sigma_matrix`: if an
explicit matrix is given, `assert matrix.shape == (5, 5)` and sample with it;
otherwise assemble the symmetric matrix from the individual entries and sample
with that. -/
def Beam.generate_from_5d_sigma_matrix (gen : Gen) (n : Nat) (p : SigmaParams)
    (matrix : Option PyMatrix) : Except BeamError (List (List ℚ)) :=
  match matrix with
  | some m =>
    if m.shape = (5, 5) then .ok (gen (meansOf p) (fun i j => m.entry i.val j.val) n)
    else .error .shapeError
  | none => .ok (gen (meansOf p) (sigmaMatrix p) n)

/-- The state recorded by a successful `_initialize_distribution`: the stored
distribution, `_n_particles = shape[0]` and `__dims = shape[1]`. -/
structure BeamDist (α : Type) where
  distribution : DataFrame α
  n_particles : Nat
  dims : Nat
deriving DecidableEq, Repr

/-- Model of `Beam._initialize_distribution`.  Resolution: an explicit
`distribution` argument wins; otherwise `pd.DataFrame(args[0])` is attempted,
where each element of `args` carries the outcome of that conversion (`none`
models the `ValueError` case and an empty `args` the `IndexError` case); on
failure the `filename` keyword (whose already parsed table is the input, file
reading being external) is used when present, else the method returns with no
distribution set.  Whenever a distribution was set, `_n_particles` is
validated to be strictly positive. -/
def Beam.init_distribution {α : Type} (distribution : Option (DataFrame α))
    (args : List (Option (DataFrame α))) (filename : Option (DataFrame α)) :
    Except BeamError (Option (BeamDist α)) :=
  let fromFile : Option (DataFrame α) :=
    match filename with
    | some t => some t
    | none => none
  let resolved : Option (DataFrame α) :=
    match distribution with
    | some d => some d
    | none =>
      match args.head? with
      | some (some d) => some d
      | some none => fromFile
      | none => fromFile
  match resolved with
  | none => .ok none
  | some d =>
    if d.rows.length ≤ 0 then .error .emptyDistribution
    else .ok (some { distribution := d, n_particles := d.rows.length, dims := d.columns.length })

/-- Model of `Beam.from_file`: load (and truncate) the file table, then
initialize the distribution with it. -/
def Beam.from_file {α : Type} (tbl : DataFrame α) (n : Option Nat) :
    Except BeamError (Option (BeamDist α)) :=
  Beam.init_distribution (some (Beam.generate_from_file tbl n)) [] none

/-- Model of the instance method `Beam.from_5d_sigma_matrix`: generate the
samples, wrap them in a DataFrame (numeric column index) and initialize the
distribution. -/
def Beam.from_5d_sigma_matrix (gen : Gen) (n : Nat) (p : SigmaParams)
    (matrix : Option PyMatrix) : Except BeamError (Option (BeamDist (List ℚ))) :=
  match Beam.generate_from_5d_sigma_matrix gen n p matrix with
  | .error e => .error e
  | .ok distribution =>
    Beam.init_distribution (some { rows := distribution, columns := numericColumns }) [] none

/-- The recognized Twiss keyword names. -/
def twissKeys : List String :=
  ["X", "PX", "Y", "PY", "DPP", "DPPRMS", "BETAX", "ALPHAX", "BETAY", "ALPHAY", "EMITX", "EMITY"]

/-- Model of `kwargs.get(k, d)`: the value stored under `k`, or the default. -/
def kwget (kwargs : List (String × ℚ)) (k : String) (d : ℚ) : ℚ :=
  (kwargs.lookup k).getD d

/-- The arguments `from_twiss_parameters` passes to `from_5d_sigma_matrix`. -/
structure TwissSigmaCall where
  x : ℚ
  px : ℚ
  y : ℚ
  py : ℚ
  dpp : ℚ
  dpprms : ℚ
  s11 : ℚ
  s12 : ℚ
  s22 : ℚ
  s33 : ℚ
  s34 : ℚ
  s44 : ℚ
deriving DecidableEq, Repr

/-- The computation `from_twiss_parameters` performs before delegating, in
Python evaluation order: reject any keyword outside `twissKeys`; read `BETAX`
(default 1) and `ALPHAX` (default 0) and divide by `BETAX` to get `GAMMAX`
(a `ZeroDivisionError` if `BETAX` is zero), likewise for the Y plane; then the
mandatory accesses `kwargs[EMITX]` and `kwargs[EMITY]` (a `KeyError` when
absent, `EMITX` first since argument `s11` is evaluated before `s33`); finally
the derived covariance entries. -/
def twissSigmaArgs (kwargs : List (String × ℚ)) : Except BeamError TwissSigmaCall :=
  if kwargs.any (fun p => decide (p.1 ∉ twissKeys)) then .error .invalidTwiss
  else
    let betax := kwget kwargs "BETAX" 1
    let alphax := kwget kwargs "ALPHAX" 0
    if betax = 0 then .error .zeroDivision
    else
      let gammax := (1 + alphax ^ 2) / betax
      let betay := kwget kwargs "BETAY" 1
      let alphay := kwget kwargs "ALPHAY" 0
      if betay = 0 then .error .zeroDivision
      else
        let gammay := (1 + alphay ^ 2) / betay
        match kwargs.lookup "EMITX" with
        | none => .error (.missingParameter "EMITX")
        | some emitx =>
          match kwargs.lookup "EMITY" with
          | none => .error (.missingParameter "EMITY")
          | some emity =>
            .ok { x := kwget kwargs "X" 0, px := kwget kwargs "PX" 0,
                  y := kwget kwargs "Y" 0, py := kwget kwargs "PY" 0,
                  dpp := kwget kwargs "DPP" 0, dpprms := kwget kwargs "DPPRMS" 0,
                  s11 := betax * emitx, s12 := -alphax * emitx, s22 := gammax * emitx,
                  s33 := betay * emity, s34 := -alphay * emity, s44 := gammay * emity }

/-- Spread of a `TwissSigmaCall` over the keyword parameters of
`from_5d_sigma_matrix`; the covariance entries not passed keep their default
value 0. -/
def sigmaParamsOfTwiss (c : TwissSigmaCall) : SigmaParams :=
  { x := c.x, px := c.px, y := c.y, py := c.py, dpp := c.dpp,
    s11 := c.s11, s12 := c.s12, s13 := 0, s14 := 0, s15 := 0,
    s22 := c.s22, s23 := 0, s24 := 0, s25 := 0,
    s33 := c.s33, s34 := c.s34, s35 := 0,
    s44 := c.s44, s45 := 0, dpprms := c.dpprms }

/-- Model of `Beam.from_twiss_parameters`: compute the derived covariance call
and delegate to `from_5d_sigma_matrix` with no explicit matrix. -/
def Beam.from_twiss_parameters (gen : Gen) (n : Nat) (kwargs : List (String × ℚ)) :
    Except BeamError (Option (BeamDist (List ℚ))) :=
  match twissSigmaArgs kwargs with
  | .error e => .error e
  | .ok c => Beam.from_5d_sigma_matrix gen n (sigmaParamsOfTwiss c) none

/-- Failure discriminator: does a result fail with some `missingParameter`. -/
def isMissingParameterFailure {β : Type} : Except BeamError β → Bool
  | .error (.missingParameter _) => true
  | _ => false

/-! ### Helper lemmas -/

/-- Relabeling a five-column frame to the canonical labels succeeds and gives
the frame with canonical columns. -/
theorem setColumns_five {α : Type} (rows : List α) (cols : List String) (hc : cols.length = 5) :
    setColumns { rows := rows, columns := cols } canonicalColumns =
      .ok { rows := rows, columns := canonicalColumns } := by
  simp [setColumns, hc, canonicalColumns]

/-- Relabeling a frame whose column count is not five fails with the pandas
length-mismatch error. -/
theorem setColumns_not_five {α : Type} (rows : List α) (cols : List String)
    (hc : cols.length ≠ 5) :
    setColumns { rows := rows, columns := cols } canonicalColumns = .error .valueError := by
  simp only [setColumns]
  rw [if_neg (by simpa [canonicalColumns] using hc)]

/-- A successful relabel carries exactly the requested labels. -/
theorem setColumns_ok_columns {α : Type} (df d : DataFrame α) (labels : List String)
    (h : setColumns df labels = .ok d) : d.columns = labels := by
  unfold setColumns at h
  split at h
  · simp only [Except.ok.injEq] at h
    subst h
    rfl
  · exact absurd h (by simp)

/-- On a five-column distribution, the yield loop succeeds and produces
exactly the longest nonempty-chunk prefix of the candidate chunks at indices
`i, i + 1, ...` for `fuel` iterations. -/
theorem get_slices_aux_eq {α : Type} (rows : List α) (cols : List String) (hc : cols.length = 5)
    (cs : Nat) :
    ∀ (fuel i : Nat),
      get_slices_aux rows cols cs i fuel =
        .ok (((List.range fuel).map (fun j => chunkD rows cs (i + j))).takeWhile
          (fun d => !decide (d.rows.length < 1))) := by
  intro fuel
  induction fuel with
  | zero => intro i; rfl
  | succ f ih =>
    intro i
    rw [List.range_succ_eq_map, List.map_cons, List.takeWhile_cons, List.map_map]
    have hmap : ((List.range f).map (fun j => chunkD rows cs (i + Nat.succ j))) =
        (List.range f).map (fun j => chunkD rows cs (i + 1 + j)) := by
      apply List.map_congr_left
      intro j _
      congr 1
      omega
    simp only [Function.comp_def] at *
    rw [hmap]
    simp only [get_slices_aux]
    rw [setColumns_five (iloc rows (i * cs) ((i + 1) * cs)) cols hc]
    by_cases h : (chunkD rows cs i).rows.length < 1
    · simp only [chunkD] at h
      simp [chunkD, h]
    · simp only [chunkD] at h
      simp [chunkD, h, ih (i + 1)]

/-- Every chunk in a successful run of the yield loop carries the canonical
labels, because each yielded chunk passed through the relabel. -/
theorem get_slices_aux_columns {α : Type} (rows : List α) (cols : List String) (cs : Nat) :
    ∀ (fuel i : Nat) (l : List (DataFrame α)),
      get_slices_aux rows cols cs i fuel = .ok l → ∀ d ∈ l, d.columns = canonicalColumns := by
  intro fuel
  induction fuel with
  | zero =>
    intro i l h d hd
    simp only [get_slices_aux, Except.ok.injEq] at h
    subst h
    simp at hd
  | succ f ih =>
    intro i l h d hd
    simp only [get_slices_aux] at h
    split at h
    · exact absurd h (by simp)
    · rename_i d1 hd1
      split at h
      · simp only [Except.ok.injEq] at h
        subst h
        simp at hd
      · split at h
        · exact absurd h (by simp)
        · rename_i l2 hl2
          simp only [Except.ok.injEq] at h
          subst h
          rcases List.mem_cons.mp hd with h1 | h2
          · rw [h1]
            exact setColumns_ok_columns _ d1 canonicalColumns hd1
          · exact ih (i + 1) l2 hl2 d h2

/-! ### Witness inputs -/

/-- A sampler standing in for the external multivariate normal generator in
witnesses: it returns the requested number of zero rows. -/
def trivialGen : Gen := fun _ _ k => List.replicate k [0, 0, 0, 0, 0]

/-- All-zero covariance parameters, for witnesses. -/
def zeroSigma : SigmaParams :=
  { x := 0, px := 0, y := 0, py := 0, dpp := 0, s11 := 0, s12 := 0, s13 := 0, s14 := 0, s15 := 0,
    s22 := 0, s23 := 0, s24 := 0, s25 := 0, s33 := 0, s34 := 0, s35 := 0, s44 := 0, s45 := 0,
    dpprms := 0 }

/-- A ten-row distribution, the concrete case named by claim C1. -/
def df10 : DataFrame Nat := { rows := List.range 10, columns := canonicalColumns }

/-- A ten-row distribution with a single column: the concrete input of the C1
counterexample, on which the relabel raises before anything is yielded. -/
def dfC1bad : DataFrame Nat := { rows := List.range 10, columns := ["q"] }

/-- A two-row distribution with two columns: the concrete input of the C10
counterexample. -/
def dfC10bad : DataFrame Nat := { rows := [7, 8], columns := ["a", "b"] }

/-- The Twiss keywords of the concrete case named by claim C2. -/
def kwC2 : List (String × ℚ) := [("BETAX", 2), ("ALPHAX", 1), ("EMITX", 1), ("EMITY", 1)]

/-- The derived call of the concrete case named by claim C2. -/
def cC2 : TwissSigmaCall :=
  { x := 0, px := 0, y := 0, py := 0, dpp := 0, dpprms := 0,
    s11 := 2, s12 := -1, s22 := 1, s33 := 1, s34 := 0, s44 := 1 }

/-- An empty distribution (zero rows). -/
def dEmpty : DataFrame Nat := { rows := [], columns := [] }

/-- A file table with zero data rows. -/
def tblC4 : DataFrame Nat := { rows := [], columns := ["h"] }

/-- Valid Twiss keywords, for the C4 witness. -/
def kwC4 : List (String × ℚ) := [("EMITX", 1), ("EMITY", 1)]

/-- The derived call for `kwC4`, written with unreduced arithmetic so that the
equation with `twissSigmaArgs kwC4` holds definitionally. -/
def cC4 : TwissSigmaCall :=
  { x := 0, px := 0, y := 0, py := 0, dpp := 0, dpprms := 0,
    s11 := 1 * 1, s12 := -0 * 1, s22 := (1 + 0 ^ 2) / 1 * 1,
    s33 := 1 * 1, s34 := -0 * 1, s44 := (1 + 0 ^ 2) / 1 * 1 }

/-- Keywords containing an unrecognized name, for the C5 witness. -/
def kwC5 : List (String × ℚ) := [("FOO", 1), ("EMITX", 1), ("EMITY", 1)]

/-- A five-column table with non-canonical labels, for the C6 witness. -/
def dfC6 : DataFrame Nat := { rows := [1, 2, 3, 4], columns := ["A", "B", "C", "D", "E"] }

/-- The slices of `dfC6` with two requested slices. -/
def lC6 : List (DataFrame Nat) :=
  [{ rows := [1, 2], columns := canonicalColumns }, { rows := [3, 4], columns := canonicalColumns }]

/-- A wrongly shaped explicit matrix, for the C7 witness. -/
def matC7 : PyMatrix := { shape := (4, 3), entry := fun _ _ => 0 }

/-- Keywords that supply a zero `BETAX` and omit the emittances: the concrete
input of the C8 counterexample. -/
def kwC8 : List (String × ℚ) := [("BETAX", 0)]

/-- Keywords with a nonzero `BETAX` and both emittances absent, for the C8
witness. -/
def kwC8w : List (String × ℚ) := [("BETAX", 2)]

/-- A ten-row file table, the concrete case named by claim C9. -/
def tblC9 : DataFrame Nat := { rows := List.range 10, columns := ["u", "v"] }

/-- A two-row distribution, for the C10 witness. -/
def dfC10 : DataFrame Nat := { rows := [7, 8], columns := ["a", "b", "c", "d", "e"] }

/-! ### Claims -/

/-- C1, counterexample to the claim as stated: the claim quantifies over
every stored distribution, but a ten-row single-column distribution sliced
with `n = 3` raises the pandas length-mismatch error at the first relabel
(which happens before the emptiness check) instead of yielding the four
chunks of sizes 3, 3, 3, 1 that the claim asserts. -/
theorem claim_C1_counterexample :
    dfC1bad.rows.length = 10 ∧ dfC1bad.columns.length = 1 ∧
    Beam.get_slices dfC1bad 3 = .error .valueError ∧
    Beam.get_slices dfC1bad 3 ≠ .ok
      [{ rows := [0, 1, 2], columns := canonicalColumns },
       { rows := [3, 4, 5], columns := canonicalColumns },
       { rows := [6, 7, 8], columns := canonicalColumns },
       { rows := [9], columns := canonicalColumns }] := by
  refine ⟨rfl, rfl, rfl, ?_⟩
  intro hcontra
  rw [show Beam.get_slices dfC1bad 3 = .error .valueError from rfl] at hcontra
  exact Except.noConfusion hcontra

/-- C1, amended: for every stored distribution with exactly five columns and
every requested slice count `n > 0`, `get_slices` computes the chunk size as
the floor of `n_tot / n` and yields, in order, the contiguous
row-order-preserving chunks `[i * chunk_size, (i + 1) * chunk_size)` for
`i = 0, 1, ..., n` (the candidates `range (n + 1)` mapped through `chunkD`),
stopping early, without yielding, the first time a candidate chunk has fewer
than 1 row (the `takeWhile`).  A distribution with any other column count
instead raises the length-mismatch error at the first relabel.  The ten-row,
`n = 3` instance of the claim is evaluated in the witness, where the four
yielded chunks of sizes 3, 3, 3, 1 are listed. -/
theorem claim_C1 {α : Type} (df : DataFrame α) (n : Nat) (hn : 0 < n)
    (hc : df.columns.length = 5) :
    Beam.get_slices df n =
      .ok (((List.range (n + 1)).map (fun i => chunkD df.rows (df.rows.length / n) i)).takeWhile
        (fun d => !decide (d.rows.length < 1))) := by
  unfold Beam.get_slices
  rw [if_neg (Nat.pos_iff_ne_zero.mp hn)]
  have h := get_slices_aux_eq df.rows df.columns hc (df.rows.length / n) (n + 1) 0
  simpa using h

/-- Witness for C1 at the concrete case of the claim: a ten-row five-column
distribution sliced with `n = 3` yields exactly four chunks, of sizes 3, 3, 3
and 1. -/
theorem claim_C1_witness :
    Beam.get_slices df10 3 =
      .ok (((List.range 4).map (fun i => chunkD df10.rows (df10.rows.length / 3) i)).takeWhile
        (fun d => !decide (d.rows.length < 1))) ∧
    Beam.get_slices df10 3 = .ok
      [{ rows := [0, 1, 2], columns := canonicalColumns },
       { rows := [3, 4, 5], columns := canonicalColumns },
       { rows := [6, 7, 8], columns := canonicalColumns },
       { rows := [9], columns := canonicalColumns }] :=
  ⟨claim_C1 df10 3 (by decide) (by rfl), by rfl⟩

/-- C2: whenever `from_twiss_parameters` succeeds in deriving its covariance
call, the derived entries are `s11 = BETAX * EMITX`, `s12 = -ALPHAX * EMITX`
and `s22 = GAMMAX * EMITX` with `GAMMAX = (1 + ALPHAX ^ 2) / BETAX`, `BETAX`
defaulting to 1 and `ALPHAX` defaulting to 0, and analogously `s33`, `s34`,
`s44` for the Y plane.  The concrete instance `BETAX = 2`, `ALPHAX = 1`,
`EMITX = 1` giving `s11 = 2`, `s12 = -1`, `s22 = 1` is evaluated in the
witness. -/
theorem claim_C2 (kwargs : List (String × ℚ)) (c : TwissSigmaCall)
    (h : twissSigmaArgs kwargs = .ok c) :
    ∃ ex ey : ℚ, kwargs.lookup "EMITX" = some ex ∧ kwargs.lookup "EMITY" = some ey ∧
      c.s11 = kwget kwargs "BETAX" 1 * ex ∧
      c.s12 = -kwget kwargs "ALPHAX" 0 * ex ∧
      c.s22 = (1 + kwget kwargs "ALPHAX" 0 ^ 2) / kwget kwargs "BETAX" 1 * ex ∧
      c.s33 = kwget kwargs "BETAY" 1 * ey ∧
      c.s34 = -kwget kwargs "ALPHAY" 0 * ey ∧
      c.s44 = (1 + kwget kwargs "ALPHAY" 0 ^ 2) / kwget kwargs "BETAY" 1 * ey := by
  simp only [twissSigmaArgs] at h
  split at h
  · exact absurd h (by simp)
  · split at h
    · exact absurd h (by simp)
    · split at h
      · exact absurd h (by simp)
      · split at h
        · exact absurd h (by simp)
        · split at h
          · exact absurd h (by simp)
          · rename_i a1 emitx hEX a2 emity hEY
            simp only [Except.ok.injEq] at h
            subst h
            exact ⟨emitx, emity, hEX, hEY, rfl, rfl, rfl, rfl, rfl, rfl⟩

/-- Witness for C2 at the concrete case of the claim: `BETAX = 2`,
`ALPHAX = 1`, `EMITX = 1` (and `EMITY = 1` so that the call succeeds) derive
`s11 = 2`, `s12 = -1`, `s22 = 1` as recorded in `cC2`. -/
theorem claim_C2_witness :
    ∃ ex ey : ℚ, kwC2.lookup "EMITX" = some ex ∧ kwC2.lookup "EMITY" = some ey ∧
      cC2.s11 = kwget kwC2 "BETAX" 1 * ex ∧
      cC2.s12 = -kwget kwC2 "ALPHAX" 0 * ex ∧
      cC2.s22 = (1 + kwget kwC2 "ALPHAX" 0 ^ 2) / kwget kwC2 "BETAX" 1 * ex ∧
      cC2.s33 = kwget kwC2 "BETAY" 1 * ey ∧
      cC2.s34 = -kwget kwC2 "ALPHAY" 0 * ey ∧
      cC2.s44 = (1 + kwget kwC2 "ALPHAY" 0 ^ 2) / kwget kwC2 "BETAY" 1 * ey :=
  claim_C2 kwC2 cC2 (by
    rw [show twissSigmaArgs kwC2 = .ok
      { x := 0, px := 0, y := 0, py := 0, dpp := 0, dpprms := 0,
        s11 := 2 * 1, s12 := -1 * 1, s22 := (1 + 1 ^ 2) / 2 * 1,
        s33 := 1 * 1, s34 := -0 * 1, s44 := (1 + 0 ^ 2) / 1 * 1 } from rfl]
    norm_num [cC2])

/-- C3: with no explicit matrix argument, `generate_from_5d_sigma_matrix`
samples with the 5×5 matrix assembled from the 15 independent entries, and
that matrix is symmetric: every entry satisfies `sigmaMatrix p j i =
sigmaMatrix p i j`. -/
theorem claim_C3 (gen : Gen) (n : Nat) (p : SigmaParams) :
    Beam.generate_from_5d_sigma_matrix gen n p none = .ok (gen (meansOf p) (sigmaMatrix p) n) ∧
    ∀ i j : Fin 5, sigmaMatrix p i j = sigmaMatrix p j i := by
  refine ⟨rfl, ?_⟩
  intro i j
  fin_cases i <;> fin_cases j <;> rfl

/-- C4: every construction path that sets a distribution (explicit argument
to the constructor, positional argument, filename keyword, `from_file`,
`from_5d_sigma_matrix`, `from_twiss_parameters`) validates the particle count
to be strictly positive, and a zero-row distribution always fails with the
empty-distribution error. -/
theorem claim_C4 {α : Type} (d : DataFrame α) (hd : d.rows.length = 0)
    (args : List (Option (DataFrame α))) (fn : Option (DataFrame α))
    (tbl : DataFrame α) (nopt : Option Nat)
    (ht : (Beam.generate_from_file tbl nopt).rows.length = 0)
    (gen : Gen) (hgen : ∀ m c k, (gen m c k).length = k)
    (p : SigmaParams) (kwargs : List (String × ℚ)) (c : TwissSigmaCall)
    (hc : twissSigmaArgs kwargs = .ok c) :
    Beam.init_distribution (some d) args fn = .error .emptyDistribution ∧
    Beam.init_distribution none (some d :: args) fn = .error .emptyDistribution ∧
    Beam.init_distribution none [] (some d) = .error .emptyDistribution ∧
    Beam.from_file tbl nopt = .error .emptyDistribution ∧
    Beam.from_5d_sigma_matrix gen 0 p none = .error .emptyDistribution ∧
    Beam.from_twiss_parameters gen 0 kwargs = .error .emptyDistribution ∧
    (∀ (d2 : DataFrame α) (st : BeamDist α),
      Beam.init_distribution (some d2) args fn = .ok (some st) → 0 < st.n_particles) := by
  refine ⟨?_, ?_, ?_, ?_, ?_, ?_, ?_⟩
  · simp [Beam.init_distribution, hd]
  · simp [Beam.init_distribution, hd]
  · simp [Beam.init_distribution, hd]
  · simp [Beam.from_file, Beam.init_distribution, ht]
  · simp [Beam.from_5d_sigma_matrix, Beam.generate_from_5d_sigma_matrix,
      Beam.init_distribution, hgen]
  · unfold Beam.from_twiss_parameters
    rw [hc]
    simp [Beam.from_5d_sigma_matrix, Beam.generate_from_5d_sigma_matrix,
      Beam.init_distribution, hgen]
  · intro d2 st h
    simp only [Beam.init_distribution] at h
    split at h
    · simp at h
    · simp only [Except.ok.injEq, Option.some.injEq] at h
      subst h
      simp only [BeamDist.n_particles]
      omega

/-- Witness for C4: the empty distribution fails through the constructor
paths, an empty file table fails through `from_file`, a zero sample count
fails through `from_5d_sigma_matrix` and `from_twiss_parameters`, and any
successfully stored distribution has a strictly positive particle count. -/
theorem claim_C4_witness :
    Beam.init_distribution (some dEmpty) [] none = .error .emptyDistribution ∧
    Beam.init_distribution none [some dEmpty] none = .error .emptyDistribution ∧
    Beam.init_distribution none [] (some dEmpty) = .error .emptyDistribution ∧
    Beam.from_file tblC4 none = .error .emptyDistribution ∧
    Beam.from_5d_sigma_matrix trivialGen 0 zeroSigma none = .error .emptyDistribution ∧
    Beam.from_twiss_parameters trivialGen 0 kwC4 = .error .emptyDistribution ∧
    (∀ (d2 : DataFrame Nat) (st : BeamDist Nat),
      Beam.init_distribution (some d2) [] none = .ok (some st) → 0 < st.n_particles) :=
  claim_C4 dEmpty (by rfl) [] none tblC4 none (by rfl) trivialGen
    (by intro m c k; simp [trivialGen]) zeroSigma kwC4 cC4 (by rfl)

/-- C5: any keyword outside the twelve recognized Twiss parameter names makes
the Twiss-based generation fail with the invalid-argument error, regardless of
the other supplied values. -/
theorem claim_C5 (gen : Gen) (n : Nat) (kwargs : List (String × ℚ))
    (h : ∃ p ∈ kwargs, p.1 ∉ twissKeys) :
    Beam.from_twiss_parameters gen n kwargs = .error .invalidTwiss := by
  have hany : (kwargs.any fun p => decide (p.1 ∉ twissKeys)) = true := by
    rcases h with ⟨p, hp, hnot⟩
    exact List.any_eq_true.mpr ⟨p, hp, by simpa using hnot⟩
  have hargs : twissSigmaArgs kwargs = .error .invalidTwiss := by
    unfold twissSigmaArgs
    rw [hany]
    simp
  unfold Beam.from_twiss_parameters
  rw [hargs]

/-- Witness for C5: the unrecognized key FOO is rejected even though both
emittances and a positive sample count are supplied. -/
theorem claim_C5_witness :
    Beam.from_twiss_parameters trivialGen 5 kwC5 = .error .invalidTwiss :=
  claim_C5 trivialGen 5 kwC5 ⟨("FOO", 1), by decide, by decide⟩

/-- C6: every chunk yielded by `get_slices` has its columns labeled exactly
`[Y, T, Z, P, D]` in that order, regardless of the column labels of the
stored distribution. -/
theorem claim_C6 {α : Type} (df : DataFrame α) (n : Nat) (l : List (DataFrame α))
    (h : Beam.get_slices df n = .ok l) : ∀ d ∈ l, d.columns = canonicalColumns := by
  unfold Beam.get_slices at h
  split at h
  · exact absurd h (by simp)
  · exact get_slices_aux_columns df.rows df.columns (df.rows.length / n) (n + 1) 0 l h

/-- Witness for C6: a distribution with labels A, B, C, D, E yields two
chunks, both relabeled to the canonical names. -/
theorem claim_C6_witness :
    Beam.get_slices dfC6 2 = .ok lC6 ∧ ∀ d ∈ lC6, d.columns = canonicalColumns :=
  ⟨by rfl, claim_C6 dfC6 2 lC6 (by rfl)⟩

/-- C7: an explicit matrix argument whose shape is not exactly 5×5 makes
`generate_from_5d_sigma_matrix` fail with the shape error. -/
theorem claim_C7 (gen : Gen) (n : Nat) (p : SigmaParams) (m : PyMatrix)
    (hm : m.shape ≠ (5, 5)) :
    Beam.generate_from_5d_sigma_matrix gen n p (some m) = .error .shapeError := by
  show (if m.shape = (5, 5) then _ else _) = _
  rw [if_neg hm]

/-- Witness for C7 at a concrete 4×3 matrix. -/
theorem claim_C7_witness :
    Beam.generate_from_5d_sigma_matrix trivialGen 1 zeroSigma (some matC7) = .error .shapeError :=
  claim_C7 trivialGen 1 zeroSigma matC7 (by decide)

/-- C8, counterexample to the claim as stated: a call with `BETAX = 0` and no
`EMITX` fails with a zero-division error, not with a missing-parameter error,
because `GAMMAX = (1 + ALPHAX ** 2) / BETAX` is computed before the mandatory
access `kwargs[EMITX]` is reached. -/
theorem claim_C8_counterexample :
    kwC8.lookup "EMITX" = none ∧
    Beam.from_twiss_parameters trivialGen 1 kwC8 = .error .zeroDivision ∧
    isMissingParameterFailure (Beam.from_twiss_parameters trivialGen 1 kwC8) = false :=
  ⟨rfl, rfl, rfl⟩

/-- C8, amended: for every call whose keywords are all among the twelve
recognized names and whose effective `BETAX` and `BETAY` are nonzero, if
`EMITX` is absent the call fails with the missing-parameter error for EMITX,
and otherwise, if `EMITY` is absent, with the missing-parameter error for
EMITY. -/
theorem claim_C8 (gen : Gen) (n : Nat) (kwargs : List (String × ℚ))
    (hkeys : (kwargs.any fun p => decide (p.1 ∉ twissKeys)) = false)
    (hbx : kwget kwargs "BETAX" 1 ≠ 0) (hby : kwget kwargs "BETAY" 1 ≠ 0)
    (hmiss : kwargs.lookup "EMITX" = none ∨ kwargs.lookup "EMITY" = none) :
    (kwargs.lookup "EMITX" = none ∧
      Beam.from_twiss_parameters gen n kwargs = .error (.missingParameter "EMITX")) ∨
    (kwargs.lookup "EMITX" ≠ none ∧ kwargs.lookup "EMITY" = none ∧
      Beam.from_twiss_parameters gen n kwargs = .error (.missingParameter "EMITY")) := by
  cases hEX : kwargs.lookup "EMITX" with
  | none =>
    left
    refine ⟨rfl, ?_⟩
    have hargs : twissSigmaArgs kwargs = .error (.missingParameter "EMITX") := by
      unfold twissSigmaArgs
      rw [hkeys, hEX]
      simp [if_neg hbx, if_neg hby]
    unfold Beam.from_twiss_parameters
    rw [hargs]
  | some ex =>
    right
    have hEY : kwargs.lookup "EMITY" = none := by
      rcases hmiss with h1 | h1
      · rw [hEX] at h1; exact absurd h1 (by simp)
      · exact h1
    refine ⟨by simp [hEX], hEY, ?_⟩
    have hargs : twissSigmaArgs kwargs = .error (.missingParameter "EMITY") := by
      unfold twissSigmaArgs
      rw [hkeys, hEX, hEY]
      simp [if_neg hbx, if_neg hby]
    unfold Beam.from_twiss_parameters
    rw [hargs]

/-- Witness for the amended C8: with only a nonzero `BETAX` supplied, the
absent `EMITX` is reported as the missing parameter. -/
theorem claim_C8_witness :
    (kwC8w.lookup "EMITX" = none ∧
      Beam.from_twiss_parameters trivialGen 1 kwC8w = .error (.missingParameter "EMITX")) ∨
    (kwC8w.lookup "EMITX" ≠ none ∧ kwC8w.lookup "EMITY" = none ∧
      Beam.from_twiss_parameters trivialGen 1 kwC8w = .error (.missingParameter "EMITY")) :=
  claim_C8 trivialGen 1 kwC8w rfl
    (by rw [show kwget kwC8w "BETAX" 1 = 2 from rfl]; norm_num)
    (by rw [show kwget kwC8w "BETAY" 1 = 1 from rfl]; norm_num)
    (Or.inl rfl)

/-- C9: loading a file table of `r` rows with the truncation count `n`
returns the first `min n r` rows in file order; when `n` is at least `r` all
rows are returned unchanged, and with no truncation count all rows are
returned. -/
theorem claim_C9 {α : Type} (tbl : DataFrame α) (n r : Nat) (hr : tbl.rows.length = r) :
    (Beam.generate_from_file tbl (some n)).rows = tbl.rows.take n ∧
    (Beam.generate_from_file tbl (some n)).rows.length = min n r ∧
    (r ≤ n → (Beam.generate_from_file tbl (some n)).rows = tbl.rows) ∧
    (Beam.generate_from_file tbl none).rows = tbl.rows := by
  subst hr
  refine ⟨rfl, ?_, ?_, rfl⟩
  · simp [Beam.generate_from_file]
  · intro hle
    simp [Beam.generate_from_file, List.take_of_length_le hle]

/-- Witness for C9 at the concrete case of the claim: a ten-row table loaded
with `n = 3` keeps the first three rows. -/
theorem claim_C9_witness :
    (Beam.generate_from_file tblC9 (some 3)).rows = tblC9.rows.take 3 ∧
    (Beam.generate_from_file tblC9 (some 3)).rows.length = min 3 10 ∧
    (10 ≤ 3 → (Beam.generate_from_file tblC9 (some 3)).rows = tblC9.rows) ∧
    (Beam.generate_from_file tblC9 none).rows = tblC9.rows :=
  claim_C9 tblC9 3 10 (by decide)

/-- C10, counterexample to the claim as stated: the claim asserts that no
error is raised for every non-empty stored distribution, but a two-row
two-column distribution sliced with `n = 5` raises the pandas length-mismatch
error at the relabel of the first (empty) candidate chunk, which happens
before the emptiness check ever runs. -/
theorem claim_C10_counterexample :
    0 < dfC10bad.rows.length ∧ dfC10bad.rows.length < 5 ∧
    dfC10bad.columns.length = 2 ∧
    Beam.get_slices dfC10bad 5 = .error .valueError ∧
    Beam.get_slices dfC10bad 5 ≠ .ok [] := by
  refine ⟨by decide, by decide, rfl, rfl, ?_⟩
  intro hcontra
  rw [show Beam.get_slices dfC10bad 5 = .error .valueError from rfl] at hcontra
  exact Except.noConfusion hcontra

/-- C10, amended: slicing a non-empty distribution with exactly five columns
with a requested count larger than the row count yields no chunks at all and
raises no error: the chunk size is zero, so the very first candidate chunk is
empty (its relabel succeeds, since it still has five columns) and iteration
stops at once.  A non-empty distribution with any other column count instead
raises the length-mismatch error at that first relabel. -/
theorem claim_C10 {α : Type} (df : DataFrame α) (n : Nat)
    (h0 : 0 < df.rows.length) (hc : df.columns.length = 5) (hn : df.rows.length < n) :
    Beam.get_slices df n = .ok [] := by
  unfold Beam.get_slices
  rw [if_neg (by omega : ¬ n = 0)]
  have hdiv : df.rows.length / n = 0 := Nat.div_eq_of_lt hn
  show get_slices_aux df.rows df.columns (df.rows.length / n) 0 (n + 1) = Except.ok []
  rw [hdiv]
  simp only [get_slices_aux]
  rw [setColumns_five (iloc df.rows (0 * 0) ((0 + 1) * 0)) df.columns hc]
  simp [iloc]

/-- Witness for C10: a two-row five-column distribution sliced with `n = 5`
yields no chunks and no error. -/
theorem claim_C10_witness : Beam.get_slices dfC10 5 = .ok [] :=
  claim_C10 dfC10 5 (by decide) (by rfl) (by decide)

end ZgoubidooBeam
